import Mathlib

/-!
# GuardsME — shallow embedding and verification

This file embeds the state and handlers of the GuardsME monitoring
application (src/App.tsx, second revision of the file, together with
src/services/geminiService.ts and src/types.ts) and settles a list of
claims about them.

Modelling conventions:
* JavaScript strings are Lean strings; the narration texts are ASCII, so
  String.toUpperCase is modelled by mapping Char.toUpper over the characters
  and String.prototype.includes by an explicit substring scan.
* Date.now() is a natural number of milliseconds.
* toLocaleTimeString() produces a time-of-day string with second
  granularity and no date component; it is modelled by the TimeString
  structure which records only the second of the day.
* new Date(s) applied to such a time-only string yields an Invalid Date
  (NaN time value) in the major ECMAScript engines, since a time-only
  string is not a valid Date Time String; jsParseTimeMs models this by
  returning none, and a comparison against NaN is false.
* Promise-based service calls are modelled by passing the outcome of the
  call (ServiceResponse) as an explicit argument to the handler.
* Log entry ids and the ids of evidence items come from Math.random in the
  source; they are passed in as arguments, since nothing inspects them.
-/

/-- ThreatLevel enum from src/types.ts. -/
inductive ThreatLevel
  | SAFE
  | CAUTION
  | DANGER
  | ANALYZING
deriving DecidableEq

/-- PatrolState union type from src/App.tsx. -/
inductive PatrolState
  | IDLE
  | BASELINE
  | REVIEW
  | ACTIVE
  | AUTH
  | SUMMARY
deriving DecidableEq

/-- Log source union from src/types.ts (SystemLog.source). -/
inductive LogSource
  | PERCEPTION
  | REASONING
  | SYSTEM
deriving DecidableEq

/-- Log level union from src/types.ts (SystemLog.level). -/
inductive LogLevel
  | info
  | warn
  | crit
deriving DecidableEq

/-- Model of a JS time-of-day string as produced by toLocaleTimeString():
second granularity, no date component, no milliseconds. -/
structure TimeString where
  secOfDay : Nat
deriving DecidableEq

/-- toLocaleTimeString at a Date.now() value (milliseconds): keeps only the
second of the day.  The timezone offset is a constant shift and is
irrelevant here because parsing such a string back fails anyway. -/
def formatTime (nowMs : Nat) : TimeString :=
  ⟨nowMs / 1000 % 86400⟩

/-- Time value of new Date(s).getTime() for a time-only locale string: the
major ECMAScript engines reject strings without a date component, giving an
Invalid Date whose time value is NaN; none models NaN. -/
def jsParseTimeMs (_ : TimeString) : Option Int :=
  none

/-- SystemLog record from src/types.ts. -/
structure SystemLog where
  id : String
  timestamp : TimeString
  message : String
  source : LogSource
  level : LogLevel
deriving DecidableEq

/-- Constructor used by addLog in src/App.tsx: random id, current time,
level always info. -/
def mkLog (lid : String) (nowMs : Nat) (message : String) (source : LogSource) : SystemLog :=
  { id := lid, timestamp := formatTime nowMs, message := message,
    source := source, level := .info }

/-- EvidenceItem.type union from src/App.tsx. -/
inductive EvidenceKind
  | SNAPSHOT
  | INTRUSION
deriving DecidableEq

/-- EvidenceItem record from src/App.tsx (the field named type in the
source is called kind here because type is a Lean keyword). -/
structure EvidenceItem where
  id : String
  timestamp : TimeString
  image : String
  kind : EvidenceKind
deriving DecidableEq

/-- DeepScanResult record from src/types.ts. -/
structure DeepScanResult where
  threatLevel : ThreatLevel
  analysis : String
  action : String
  confidence : Int
deriving DecidableEq

/-- The React state of the App component in src/App.tsx that the claims
are about (volume, session start time and the formatted session duration
are omitted: no claim mentions them). -/
structure SysState where
  patrol : PatrolState
  threat : ThreatLevel
  logs : List SystemLog
  baselineData : Option DeepScanResult
  baselineImage : Option String
  evidence : List EvidenceItem
  statsThreats : Nat
  statsDeepScans : Nat
  authError : Option String
deriving DecidableEq

/-- Initial state of the App component (useState initialisers). -/
def initState : SysState :=
  { patrol := .IDLE, threat := .SAFE, logs := [], baselineData := none,
    baselineImage := none, evidence := [], statsThreats := 0,
    statsDeepScans := 0, authError := none }

/-! ## JS string operations -/

/-- Whether the needle matches at the head of the haystack. -/
def matchHere : List Char → List Char → Bool
  | [], _ => true
  | _ :: _, [] => false
  | a :: as, b :: bs => a == b && matchHere as bs

/-- Whether the needle occurs somewhere in the haystack. -/
def includesSub (needle : List Char) : List Char → Bool
  | [] => matchHere needle []
  | b :: t => matchHere needle (b :: t) || includesSub needle t

/-- String.prototype.includes. -/
def jsIncludes (hay needle : String) : Bool :=
  includesSub needle.data hay.data

/-- String.prototype.toUpperCase (ASCII texts). -/
def jsToUpper (s : String) : String :=
  ⟨s.data.map Char.toUpper⟩

/-! ## Threat classification (handleAgentPerception, src/App.tsx) -/

/-- Keywords of the DANGER branch of handleAgentPerception. -/
def dangerKws : List String :=
  ["DANGER", "UNAUTHORIZED", "INTRUDER", "ACCESS ATTEMPT"]

/-- Keywords of the CAUTION branch of handleAgentPerception. -/
def cautionKws : List String :=
  ["WARNING", "CAUTION", "UNKNOWN"]

/-- Keywords of the SAFE branch of handleAgentPerception. -/
def safeKws : List String :=
  ["SAFE", "VERIFIED", "SECURE", "AUTHORIZED"]

/-- Whether the (already uppercased) text contains one of the keywords. -/
def hasAny (kws : List String) (u : String) : Bool :=
  kws.any (fun k => jsIncludes u k)

/-- The threat level computed by the if/else chain of
handleAgentPerception from the previous level and the narration text. -/
def classifyLevel (prev : ThreatLevel) (text : String) : ThreatLevel :=
  let u := jsToUpper text
  if hasAny dangerKws u then .DANGER
  else if hasAny cautionKws u then .CAUTION
  else if hasAny safeKws u then .SAFE
  else prev

/-! ## The reasoning service (performDeepScan, src/services/geminiService.ts) -/

/-- Outcome of the generateContent call inside performDeepScan:
either the response carries a text that parses into a DeepScanResult, or
the text is present but JSON.parse throws, or the text is absent, or the
call itself rejects (network error, timeout, API error). -/
inductive ServiceResponse
  | ok (r : DeepScanResult)
  | malformed
  | emptyText
  | netError
deriving DecidableEq

/-- The fail-safe result built in the catch block of performDeepScan. -/
def failSafeResult : DeepScanResult :=
  { threatLevel := .SAFE,
    analysis := "Sensor input degraded. Unable to process biometric data.",
    action := "Maintain Lock",
    confidence := 0 }

/-- performDeepScan from src/services/geminiService.ts.  A missing API key
throws before the try block, so that error propagates to the caller
(Except.error); every failure inside the try block — call rejection, empty
response text, JSON.parse throwing — is caught and replaced by the
fail-safe result.  The optional context argument only changes the prompt
text sent to the service, so it is not modelled. -/
def performDeepScan (apiKey : Bool) (resp : ServiceResponse) : Except Unit DeepScanResult :=
  if apiKey then
    match resp with
    | .ok r => .ok r
    | .malformed => .ok failSafeResult
    | .emptyText => .ok failSafeResult
    | .netError => .ok failSafeResult
  else .error ()

/-! ## Evidence capture (captureEvidence, src/App.tsx) -/

/-- The anti-spam spacing test of captureEvidence:
Date.now() - new Date(lastItem.timestamp).getTime() < 2000.  The stored
timestamp is a time-only locale string, so getTime() is NaN and the
comparison is false whatever now is. -/
def withinSpacing (nowMs : Nat) (last : EvidenceItem) : Bool :=
  match jsParseTimeMs last.timestamp with
  | none => false
  | some t => (nowMs : Int) - t < 2000

/-- captureEvidence from src/App.tsx.  frame is the result of
videoRef.current.captureFrame() (none when capture fails).  The functional
updater first rejects when the last stored item is within the spacing
window, then when the store is at capacity, otherwise appends; the
EVIDENCE SECURED log is emitted outside the updater, for every attempt
whose frame capture succeeded. -/
def captureEvidence (nowMs : Nat) (eid lid : String) (frame : Option String)
    (st : SysState) : SysState :=
  match frame with
  | none => st
  | some f =>
    let newItem : EvidenceItem :=
      { id := eid, timestamp := formatTime nowMs, image := f, kind := .INTRUSION }
    let rejectSpacing :=
      match st.evidence.getLast? with
      | some last => withinSpacing nowMs last
      | none => false
    let ev :=
      if rejectSpacing then st.evidence
      else if 8 ≤ st.evidence.length then st.evidence
      else st.evidence ++ [newItem]
    { st with evidence := ev,
              logs := st.logs ++
                [mkLog lid nowMs "EVIDENCE SECURED: Intrusion Snapshot Stored" .SYSTEM] }

/-! ## Perception handling (handleAgentPerception, src/App.tsx) -/

/-- handleAgentPerception from src/App.tsx.  eid and elid are the ids used
by the captureEvidence call of the DANGER branch, frame the frame it
captures; lid is the id of the PERCEPTION log entry.  The alert sound of
the DANGER branch has no effect on the modelled state. -/
def handleAgentPerception (nowMs : Nat) (eid elid lid : String)
    (frame : Option String) (text : String) (st : SysState) : SysState :=
  let u := jsToUpper text
  let st1 :=
    if hasAny dangerKws u then
      captureEvidence nowMs eid elid frame
        { st with threat := .DANGER, statsThreats := st.statsThreats + 1 }
    else if hasAny cautionKws u then { st with threat := .CAUTION }
    else if hasAny safeKws u then { st with threat := .SAFE }
    else st
  if 5 < text.length then
    { st1 with logs := st1.logs ++ [mkLog lid nowMs text .PERCEPTION] }
  else st1

/-! ## Baseline capture and session control (src/App.tsx) -/

/-- captureBaseline from src/App.tsx.  camOk models videoRef.current being
non-null; frame the captured frame.  A throw out of performDeepScan (only
possible for a missing API key) is caught and falls back to IDLE without
touching the baseline fields; a null frame returns after the first log. -/
def captureBaseline (camOk apiKey : Bool) (frame : Option String)
    (resp : ServiceResponse) (nowMs : Nat) (lid lid2 : String)
    (st : SysState) : SysState :=
  if camOk then
    let st1 := { st with logs := st.logs ++
      [mkLog lid nowMs "INITIATING BASELINE BIOMETRIC SCAN..." .SYSTEM] }
    match frame with
    | none => st1
    | some f =>
      match performDeepScan apiKey resp with
      | .error _ => { st1 with patrol := .IDLE }
      | .ok r =>
        { st1 with baselineData := some r, baselineImage := some f,
                   patrol := .REVIEW,
                   logs := st1.logs ++
                     [mkLog lid2 nowMs "BASELINE ESTABLISHED. AWAITING CONFIRMATION." .SYSTEM] }
  else st

/-- authorizeAndStart from src/App.tsx (the Confirm Identity button of the
REVIEW overlay); the media stream is present whenever the button is
reachable.  Session start time is not modelled. -/
def authorizeAndStart (nowMs : Nat) (lid : String) (st : SysState) : SysState :=
  { st with patrol := .ACTIVE, statsThreats := 0, statsDeepScans := 0,
            evidence := [],
            logs := st.logs ++ [mkLog lid nowMs "SYSTEM LOCKED. MONITORING ACTIVE." .SYSTEM] }

/-- lockSystem from src/App.tsx: closes the live session and moves to the
AUTH lock screen.  The session duration string is not modelled. -/
def lockSystem (nowMs : Nat) (lid : String) (st : SysState) : SysState :=
  { st with logs := st.logs ++
      [mkLog lid nowMs "SYSTEM LOCKED. AUTHENTICATION REQUIRED." .SYSTEM],
            patrol := .AUTH, threat := .SAFE }

/-- resetSystem from src/App.tsx, reached from both Secure Delete (after
the confirm dialog) and Archive Evidence. -/
def resetSystem (st : SysState) : SysState :=
  { st with patrol := .IDLE, baselineData := none, baselineImage := none,
            logs := [], evidence := [] }

/-! ## Authentication (handleAuthSubmit, src/App.tsx) -/

/-- handleAuthSubmit from src/App.tsx.  password is the submitted form
field, camOk models videoRef.current being non-null, frame the fresh
snapshot, resp the outcome of the comparison call against the baseline
analysis.  isVerifying is true only during the await and ends false on
every path, so it is not a field of the model. -/
def handleAuthSubmit (apiKey camOk : Bool) (password : String)
    (frame : Option String) (resp : ServiceResponse) (st : SysState) : SysState :=
  let st0 := { st with authError := none }
  if password.isEmpty then
    { st0 with authError := some "Password required." }
  else if !camOk || st0.baselineData.isNone then
    { st0 with authError := some "Camera error. Cannot verify biometrics." }
  else
    match frame with
    | none => { st0 with authError := some "Camera obstruction. Face verification failed." }
    | some _ =>
      match performDeepScan apiKey resp with
      | .error _ => { st0 with authError := some "Verification service unavailable." }
      | .ok r =>
        if r.threatLevel = .SAFE then { st0 with patrol := .SUMMARY }
        else { st0 with authError := some "Biometric Mismatch. Access Denied." }

/-! ## Manual deep scan (handleDeepScan, src/App.tsx) -/

/-- handleDeepScan from src/App.tsx.  Returns the new state together with
whether the performDeepScan request was actually issued.  There is no
try/catch here, so a throw out of performDeepScan leaves the state updates
already applied in place; the captureEvidence call of the DANGER branch
captures its own frame (frame2). -/
def handleDeepScan (camOk apiKey : Bool) (frame frame2 : Option String)
    (resp : ServiceResponse) (nowMs : Nat) (eid elid lid lid2 : String)
    (st : SysState) : SysState × Bool :=
  if camOk then
    let st1 := { st with threat := .ANALYZING,
                         statsDeepScans := st.statsDeepScans + 1,
                         logs := st.logs ++
                           [mkLog lid nowMs "INITIATING MANUAL IDENTITY VERIFICATION..." .SYSTEM] }
    match frame with
    | none => (st1, false)
    | some _ =>
      match performDeepScan apiKey resp with
      | .error _ => (st1, true)
      | .ok r =>
        let st2 := { st1 with threat := r.threatLevel,
                              logs := st1.logs ++ [mkLog lid2 nowMs r.analysis .REASONING] }
        if r.threatLevel = .DANGER then (captureEvidence nowMs eid elid frame2 st2, true)
        else (st2, true)
  else (st, false)

/-! ## Live audio scheduling (connectLiveAgent onmessage, src/App.tsx) -/

/-- A decoded inbound audio buffer together with the value of
outputCtx.currentTime when its message is handled.  Both reads of
currentTime in the handler happen in the same synchronous block and are
modelled as equal. -/
structure AudioEvent where
  clock : ℚ
  dur : ℚ
deriving DecidableEq

/-- Scheduled start time of a buffer:
Math.max(outputCtx.currentTime, nextStartTimeRef.current). -/
def schedStart (next : ℚ) (e : AudioEvent) : ℚ :=
  max e.clock next

/-- New value of nextStartTimeRef after scheduling the buffer. -/
def schedNext (next : ℚ) (e : AudioEvent) : ℚ :=
  schedStart next e + e.dur

/-- The (start, end) pairs scheduled for a sequence of inbound buffers,
threading the nextStartTimeRef cursor. -/
def runSched (next : ℚ) : List AudioEvent → List (ℚ × ℚ)
  | [] => []
  | e :: es => (schedStart next e, schedNext next e) :: runSched (schedNext next e) es

/-! ## The patrol state machine -/

/-- Whether a patrol state is one the spec says requires a baseline
profile. -/
def requiresBaseline : PatrolState → Bool
  | .REVIEW => true
  | .ACTIVE => true
  | .AUTH => true
  | .SUMMARY => true
  | _ => false

/-- One user- or environment-triggered transition of the App component.
Each constructor mirrors one handler of src/App.tsx together with the
condition under which the UI can fire it:
* startProtocol: the Start Protocol button of the IDLE screen;
* baselineScan: captureBaseline, fired by handleStreamReady in BASELINE;
* retakeBaseline: the Retake button of the REVIEW overlay;
* confirmIdentity: the Confirm Identity button of the REVIEW overlay;
* connectFailure: the catch of connectLiveAgent or the rejection handler
  of the session promise, which set the patrol state to IDLE and nothing
  else;
* perceive: handleAgentPerception on an output transcription;
* manualScan: the Verify Subject button (handleDeepScan);
* lockNow: the stop button (lockSystem);
* authSubmit: the Unlock System form (handleAuthSubmit);
* discardClose / archiveClose: the SUMMARY buttons, both of which run
  resetSystem. -/
inductive Step : SysState → SysState → Prop
  | startProtocol (st : SysState) (h : st.patrol = .IDLE) :
      Step st { st with patrol := .BASELINE }
  | baselineScan (st : SysState) (camOk apiKey : Bool) (frame : Option String)
      (resp : ServiceResponse) (nowMs : Nat) (lid lid2 : String)
      (h : st.patrol = .BASELINE) :
      Step st (captureBaseline camOk apiKey frame resp nowMs lid lid2 st)
  | retakeBaseline (st : SysState) (h : st.patrol = .REVIEW) :
      Step st { st with patrol := .IDLE, baselineData := none, baselineImage := none }
  | confirmIdentity (st : SysState) (nowMs : Nat) (lid : String)
      (h : st.patrol = .REVIEW) :
      Step st (authorizeAndStart nowMs lid st)
  | connectFailure (st : SysState) (h : st.patrol = .ACTIVE) :
      Step st { st with patrol := .IDLE }
  | perceive (st : SysState) (nowMs : Nat) (eid elid lid : String)
      (frame : Option String) (text : String) (h : st.patrol = .ACTIVE) :
      Step st (handleAgentPerception nowMs eid elid lid frame text st)
  | manualScan (st : SysState) (camOk apiKey : Bool) (frame frame2 : Option String)
      (resp : ServiceResponse) (nowMs : Nat) (eid elid lid lid2 : String)
      (h : st.patrol = .ACTIVE) :
      Step st (handleDeepScan camOk apiKey frame frame2 resp nowMs eid elid lid lid2 st).1
  | lockNow (st : SysState) (nowMs : Nat) (lid : String) (h : st.patrol = .ACTIVE) :
      Step st (lockSystem nowMs lid st)
  | authSubmit (st : SysState) (apiKey camOk : Bool) (password : String)
      (frame : Option String) (resp : ServiceResponse) (h : st.patrol = .AUTH) :
      Step st (handleAuthSubmit apiKey camOk password frame resp st)
  | discardClose (st : SysState) (h : st.patrol = .SUMMARY) :
      Step st (resetSystem st)
  | archiveClose (st : SysState) (h : st.patrol = .SUMMARY) :
      Step st (resetSystem st)

/-- States reachable from the initial App state. -/
inductive Reachable : SysState → Prop
  | init : Reachable initState
  | step {s s2 : SysState} : Reachable s → Step s s2 → Reachable s2

/-! ## A concrete session trace -/

/-- A concrete baseline analysis returned by the reasoning service. -/
def bScan : DeepScanResult :=
  { threatLevel := .SAFE, analysis := "SUBJECT: baseline recorded.",
    action := "Baseline Recorded. Awaiting Protocol Start.", confidence := 97 }

/-- A concrete successful biometric comparison result. -/
def okScan : DeepScanResult :=
  { threatLevel := .SAFE, analysis := "BIOMETRIC MATCH: SUCCESS.",
    action := "Grant Access", confidence := 99 }

/-- After pressing Start Protocol. -/
def stBase : SysState := { initState with patrol := .BASELINE }

/-- After the baseline scan succeeds. -/
def stRev : SysState :=
  captureBaseline true true (some "img0") (.ok bScan) 5000 "b1" "b2" stBase

/-- After Confirm Identity. -/
def stAct : SysState := authorizeAndStart 6000 "b3" stRev

/-- After the stop button locks the system. -/
def stAuthS : SysState := lockSystem 7000 "b4" stAct

/-- After a successful credential and biometric resubmission. -/
def stSum : SysState :=
  handleAuthSubmit true true "pw" (some "img1") (.ok okScan) stAuthS

/-- After Archive Evidence. -/
def stEnd : SysState := resetSystem stSum

/-- The state reached when connectLiveAgent fails right after the session
was authorised: back to IDLE with the baseline left in place. -/
def stLeak : SysState := { stAct with patrol := .IDLE }

/-- The PERCEPTION entries of the log, in order. -/
def perceptionLogs (s : SysState) : List SystemLog :=
  s.logs.filter (fun l => decide (l.source = LogSource.PERCEPTION))

/-- A state whose evidence store is at capacity. -/
def stFull : SysState :=
  { initState with
      evidence := List.replicate 8 ⟨"e0", ⟨0⟩, "f0", .INTRUSION⟩ }

/-! ## Sanity checks -/

example : classifyLevel .SAFE "ALERT: Unauthorized Biometric Detected" = .DANGER := by rfl
example : classifyLevel .DANGER "Status: Secure. Terminal Vacant." = .SAFE := by rfl
example : classifyLevel .CAUTION "hmm" = .CAUTION := by rfl
example : stRev.patrol = .REVIEW := by rfl
example : stSum.patrol = .SUMMARY := by rfl
example : stLeak.baselineData = some bScan := by rfl

/-! ## Preservation lemmas -/

@[simp] lemma captureEvidence_patrol (nowMs : Nat) (eid lid : String)
    (frame : Option String) (st : SysState) :
    (captureEvidence nowMs eid lid frame st).patrol = st.patrol := by
  cases frame <;> rfl

@[simp] lemma captureEvidence_baselineData (nowMs : Nat) (eid lid : String)
    (frame : Option String) (st : SysState) :
    (captureEvidence nowMs eid lid frame st).baselineData = st.baselineData := by
  cases frame <;> rfl

@[simp] lemma captureEvidence_baselineImage (nowMs : Nat) (eid lid : String)
    (frame : Option String) (st : SysState) :
    (captureEvidence nowMs eid lid frame st).baselineImage = st.baselineImage := by
  cases frame <;> rfl

@[simp] lemma captureEvidence_threat (nowMs : Nat) (eid lid : String)
    (frame : Option String) (st : SysState) :
    (captureEvidence nowMs eid lid frame st).threat = st.threat := by
  cases frame <;> rfl

@[simp] lemma handleAgentPerception_patrol (nowMs : Nat) (eid elid lid : String)
    (frame : Option String) (text : String) (st : SysState) :
    (handleAgentPerception nowMs eid elid lid frame text st).patrol = st.patrol := by
  simp only [handleAgentPerception]
  repeat' split
  all_goals simp

@[simp] lemma handleAgentPerception_baselineData (nowMs : Nat) (eid elid lid : String)
    (frame : Option String) (text : String) (st : SysState) :
    (handleAgentPerception nowMs eid elid lid frame text st).baselineData = st.baselineData := by
  simp only [handleAgentPerception]
  repeat' split
  all_goals simp

@[simp] lemma handleAgentPerception_baselineImage (nowMs : Nat) (eid elid lid : String)
    (frame : Option String) (text : String) (st : SysState) :
    (handleAgentPerception nowMs eid elid lid frame text st).baselineImage = st.baselineImage := by
  simp only [handleAgentPerception]
  repeat' split
  all_goals simp

@[simp] lemma handleDeepScan_patrol (camOk apiKey : Bool) (frame frame2 : Option String)
    (resp : ServiceResponse) (nowMs : Nat) (eid elid lid lid2 : String) (st : SysState) :
    (handleDeepScan camOk apiKey frame frame2 resp nowMs eid elid lid lid2 st).1.patrol
      = st.patrol := by
  simp only [handleDeepScan]
  split <;> try rfl
  split <;> try rfl
  split <;> try rfl
  split <;> simp

@[simp] lemma handleDeepScan_baselineData (camOk apiKey : Bool) (frame frame2 : Option String)
    (resp : ServiceResponse) (nowMs : Nat) (eid elid lid lid2 : String) (st : SysState) :
    (handleDeepScan camOk apiKey frame frame2 resp nowMs eid elid lid lid2 st).1.baselineData
      = st.baselineData := by
  simp only [handleDeepScan]
  split <;> try rfl
  split <;> try rfl
  split <;> try rfl
  split <;> simp

@[simp] lemma handleDeepScan_baselineImage (camOk apiKey : Bool) (frame frame2 : Option String)
    (resp : ServiceResponse) (nowMs : Nat) (eid elid lid lid2 : String) (st : SysState) :
    (handleDeepScan camOk apiKey frame frame2 resp nowMs eid elid lid lid2 st).1.baselineImage
      = st.baselineImage := by
  simp only [handleDeepScan]
  split <;> try rfl
  split <;> try rfl
  split <;> try rfl
  split <;> simp

@[simp] lemma handleAuthSubmit_baselineData (apiKey camOk : Bool) (password : String)
    (frame : Option String) (resp : ServiceResponse) (st : SysState) :
    (handleAuthSubmit apiKey camOk password frame resp st).baselineData
      = st.baselineData := by
  simp only [handleAuthSubmit]
  split <;> try rfl
  split <;> try rfl
  split <;> try rfl
  split <;> try rfl
  split <;> rfl

@[simp] lemma handleAuthSubmit_baselineImage (apiKey camOk : Bool) (password : String)
    (frame : Option String) (resp : ServiceResponse) (st : SysState) :
    (handleAuthSubmit apiKey camOk password frame resp st).baselineImage
      = st.baselineImage := by
  simp only [handleAuthSubmit]
  split <;> try rfl
  split <;> try rfl
  split <;> try rfl
  split <;> try rfl
  split <;> rfl

@[simp] lemma withinSpacing_false (nowMs : Nat) (it : EvidenceItem) :
    withinSpacing nowMs it = false := rfl

/-- Case split for captureBaseline: either the state is unchanged apart
from logs, or it falls back to IDLE with the baseline untouched, or it
reaches REVIEW with both baseline fields set. -/
lemma captureBaseline_cases (camOk apiKey : Bool) (frame : Option String)
    (resp : ServiceResponse) (nowMs : Nat) (lid lid2 : String) (st : SysState) :
    ((captureBaseline camOk apiKey frame resp nowMs lid lid2 st).patrol = st.patrol ∧
     (captureBaseline camOk apiKey frame resp nowMs lid lid2 st).baselineData = st.baselineData ∧
     (captureBaseline camOk apiKey frame resp nowMs lid lid2 st).baselineImage = st.baselineImage) ∨
    ((captureBaseline camOk apiKey frame resp nowMs lid lid2 st).patrol = .IDLE ∧
     (captureBaseline camOk apiKey frame resp nowMs lid lid2 st).baselineData = st.baselineData ∧
     (captureBaseline camOk apiKey frame resp nowMs lid lid2 st).baselineImage = st.baselineImage) ∨
    ((captureBaseline camOk apiKey frame resp nowMs lid lid2 st).patrol = .REVIEW ∧
     (captureBaseline camOk apiKey frame resp nowMs lid lid2 st).baselineData.isSome = true ∧
     (captureBaseline camOk apiKey frame resp nowMs lid lid2 st).baselineImage.isSome = true) := by
  simp only [captureBaseline]
  split
  · split
    · left; simp
    · split
      · right; left; simp
      · right; right; simp
  · left; simp

/-- handleAuthSubmit either keeps the patrol state or moves it to SUMMARY. -/
lemma handleAuthSubmit_patrol_cases (apiKey camOk : Bool) (password : String)
    (frame : Option String) (resp : ServiceResponse) (st : SysState) :
    (handleAuthSubmit apiKey camOk password frame resp st).patrol = st.patrol ∨
    (handleAuthSubmit apiKey camOk password frame resp st).patrol = .SUMMARY := by
  simp only [handleAuthSubmit]
  repeat' split
  all_goals simp

/-! ## Reachability of the concrete trace -/

lemma reach_stBase : Reachable stBase :=
  Reachable.step Reachable.init (Step.startProtocol initState rfl)

lemma reach_stRev : Reachable stRev :=
  Reachable.step reach_stBase
    (Step.baselineScan stBase true true (some "img0") (.ok bScan) 5000 "b1" "b2" rfl)

lemma reach_stAct : Reachable stAct :=
  Reachable.step reach_stRev (Step.confirmIdentity stRev 6000 "b3" rfl)

lemma reach_stAuthS : Reachable stAuthS :=
  Reachable.step reach_stAct (Step.lockNow stAct 7000 "b4" rfl)

lemma reach_stSum : Reachable stSum :=
  Reachable.step reach_stAuthS
    (Step.authSubmit stAuthS true true "pw" (some "img1") (.ok okScan) rfl)

/-! ## Audio scheduling lemmas -/

/-- The scheduled (start, end) pairs are chained: each start is at or
after the previous start and at or after the previous end. -/
lemma runSched_chain (es : List AudioEvent) : ∀ next : ℚ,
    (∀ e ∈ es, 0 ≤ e.dur) →
    List.Chain' (fun p q : ℚ × ℚ => p.1 ≤ q.1 ∧ p.2 ≤ q.1) (runSched next es) := by
  induction es with
  | nil => intro next _; simp [runSched]
  | cons e es ih =>
    intro next h
    have hd : 0 ≤ e.dur := h e (List.mem_cons_self e es)
    have htl : ∀ x ∈ es, 0 ≤ x.dur := fun x hx => h x (List.mem_cons_of_mem e hx)
    cases es with
    | nil => simp [runSched]
    | cons e2 es2 =>
      rw [runSched]
      refine List.chain'_cons'.mpr ⟨?_, ?_⟩
      · intro b hb
        rw [runSched] at hb
        simp only [List.head?_cons, Option.mem_def, Option.some.injEq] at hb
        subst hb
        constructor
        · calc schedStart next e ≤ schedStart next e + e.dur :=
                le_add_of_nonneg_right hd
            _ = schedNext next e := rfl
            _ ≤ max e2.clock (schedNext next e) := le_max_right _ _
        · exact le_max_right _ _
      · exact ih (schedNext next e) htl

/-- The threat level computed by handleAgentPerception is exactly
classifyLevel of the previous level and the narration text. -/
lemma perception_threat_eq (nowMs : Nat) (eid elid lid : String)
    (frame : Option String) (text : String) (st : SysState) :
    (handleAgentPerception nowMs eid elid lid frame text st).threat
      = classifyLevel st.threat text := by
  simp only [handleAgentPerception, classifyLevel]
  repeat' split
  all_goals simp_all

/-- captureEvidence only appends a SYSTEM log entry, so the PERCEPTION
entries are untouched. -/
lemma perceptionLogs_captureEvidence (nowMs : Nat) (eid lid : String)
    (frame : Option String) (st : SysState) :
    perceptionLogs (captureEvidence nowMs eid lid frame st) = perceptionLogs st := by
  cases frame with
  | none => rfl
  | some f => simp [captureEvidence, perceptionLogs, List.filter_append, mkLog]

/-! ## Claim theorems -/

/-- C1: the claim says a reasoning-service timeout, error or malformed
response on the AUTH path denies authentication and keeps the state at
AUTH.  The code does the opposite: performDeepScan catches every such
failure and returns the fail-safe result, whose threat level is SAFE, and
handleAuthSubmit treats SAFE as a successful biometric match, so a service
failure transitions AUTH to SUMMARY with no auth error — even though the
fail-safe result itself says Maintain Lock. -/
theorem auth_service_failure_grants_access :
    (handleAuthSubmit true true "hunter2" (some "frame") .netError stAuthS).patrol
      = .SUMMARY ∧
    (handleAuthSubmit true true "hunter2" (some "frame") .netError stAuthS).authError
      = none ∧
    (handleAuthSubmit true true "hunter2" (some "frame") .malformed stAuthS).patrol
      = .SUMMARY ∧
    (handleAuthSubmit true true "hunter2" (some "frame") .emptyText stAuthS).patrol
      = .SUMMARY ∧
    stAuthS.patrol = .AUTH ∧
    failSafeResult.threatLevel = .SAFE ∧
    failSafeResult.action = "Maintain Lock" ∧
    failSafeResult.confidence = 0 :=
  ⟨rfl, rfl, rfl, rfl, rfl, rfl, rfl, rfl⟩

/-- C2: the claim says two accepted captures within 2000 ms store exactly
one item.  In the code the spacing test parses the stored
toLocaleTimeString value with new Date, which yields NaN, so the test
never rejects: two captures 1000 ms apart store two items. -/
theorem capture_spacing_never_rejects :
    1001000 - 1000000 < 2000 ∧
    ((captureEvidence 1001000 "e2" "l2" (some "f2")
        (captureEvidence 1000000 "e1" "l1" (some "f1") initState)).evidence).length = 2 :=
  ⟨by decide, rfl⟩

/-- C7: an auth submission with an empty credential never reaches
SUMMARY, whatever the camera, service and biometric outcome; the state
stays AUTH and the Password required error is surfaced. -/
theorem empty_password_never_unlocks :
    ∀ (apiKey camOk : Bool) (frame : Option String) (resp : ServiceResponse)
      (st : SysState), st.patrol = .AUTH →
      (handleAuthSubmit apiKey camOk "" frame resp st).patrol = .AUTH ∧
      (handleAuthSubmit apiKey camOk "" frame resp st).authError
        = some "Password required." := by
  intro apiKey camOk frame resp st h
  refine ⟨?_, rfl⟩
  rw [show (handleAuthSubmit apiKey camOk "" frame resp st).patrol = st.patrol from rfl]
  exact h

theorem empty_password_never_unlocks_witness :
    (handleAuthSubmit true true "" (some "img1") (.ok okScan) stAuthS).patrol = .AUTH ∧
    (handleAuthSubmit true true "" (some "img1") (.ok okScan) stAuthS).authError
      = some "Password required." :=
  empty_password_never_unlocks true true (some "img1") (.ok okScan) stAuthS rfl

/-- C10: a manual deep scan in ACTIVE whose frame capture returns null
still increments the deep-scan counter, issues no reasoning request,
leaves the threat level at ANALYZING and keeps the patrol state. -/
theorem null_frame_scan_keeps_analyzing :
    ∀ (apiKey : Bool) (frame2 : Option String) (resp : ServiceResponse)
      (nowMs : Nat) (eid elid lid lid2 : String) (st : SysState),
      st.patrol = .ACTIVE →
      (handleDeepScan true apiKey none frame2 resp nowMs eid elid lid lid2 st).1.statsDeepScans
        = st.statsDeepScans + 1 ∧
      (handleDeepScan true apiKey none frame2 resp nowMs eid elid lid lid2 st).1.threat
        = .ANALYZING ∧
      (handleDeepScan true apiKey none frame2 resp nowMs eid elid lid lid2 st).2 = false ∧
      (handleDeepScan true apiKey none frame2 resp nowMs eid elid lid lid2 st).1.patrol
        = .ACTIVE := by
  intro apiKey frame2 resp nowMs eid elid lid lid2 st h
  refine ⟨rfl, rfl, rfl, ?_⟩
  rw [show (handleDeepScan true apiKey none frame2 resp nowMs eid elid lid lid2 st).1.patrol
        = st.patrol from rfl]
  exact h

theorem null_frame_scan_keeps_analyzing_witness :
    (handleDeepScan true true none none .netError 8000 "e" "el" "l" "l2" stAct).1.statsDeepScans
      = stAct.statsDeepScans + 1 ∧
    (handleDeepScan true true none none .netError 8000 "e" "el" "l" "l2" stAct).1.threat
      = .ANALYZING ∧
    (handleDeepScan true true none none .netError 8000 "e" "el" "l" "l2" stAct).2 = false ∧
    (handleDeepScan true true none none .netError 8000 "e" "el" "l" "l2" stAct).1.patrol
      = .ACTIVE :=
  null_frame_scan_keeps_analyzing true none .netError 8000 "e" "el" "l" "l2" stAct rfl

/-- C6 counterexample: a capture attempt rejected because the store is at
capacity leaves the store unchanged but still emits the EVIDENCE SECURED
log entry, refuting the no-side-effect claim. -/
theorem capture_reject_still_logs_cex :
    stFull.evidence.length = 8 ∧
    (captureEvidence 99000 "e9" "l9" (some "f9") stFull).evidence = stFull.evidence ∧
    (captureEvidence 99000 "e9" "l9" (some "f9") stFull).logs.length
      = stFull.logs.length + 1 :=
  ⟨rfl, rfl, rfl⟩

/-- C6 (amended): a failed frame capture has no effect at all; an attempt
with a captured frame always appends the EVIDENCE SECURED log entry, even
when the store is at capacity and the item is rejected; rejected attempts
leave the store unchanged and accepted attempts append exactly one
INTRUSION item. -/
theorem capture_side_effect_contract :
    (∀ (nowMs : Nat) (eid lid : String) (st : SysState),
       captureEvidence nowMs eid lid none st = st) ∧
    (∀ (nowMs : Nat) (eid lid f : String) (st : SysState),
       8 ≤ st.evidence.length →
       (captureEvidence nowMs eid lid (some f) st).evidence = st.evidence ∧
       (captureEvidence nowMs eid lid (some f) st).logs
         = st.logs ++ [mkLog lid nowMs "EVIDENCE SECURED: Intrusion Snapshot Stored" .SYSTEM]) ∧
    (∀ (nowMs : Nat) (eid lid f : String) (st : SysState),
       st.evidence.length < 8 →
       (captureEvidence nowMs eid lid (some f) st).evidence
         = st.evidence ++ [⟨eid, formatTime nowMs, f, .INTRUSION⟩] ∧
       (captureEvidence nowMs eid lid (some f) st).logs
         = st.logs ++ [mkLog lid nowMs "EVIDENCE SECURED: Intrusion Snapshot Stored" .SYSTEM]) := by
  refine ⟨fun _ _ _ _ => rfl, ?_, ?_⟩
  · intro nowMs eid lid f st hlen
    constructor
    · simp only [captureEvidence]
      cases st.evidence.getLast? <;> simp [hlen]
    · rfl
  · intro nowMs eid lid f st hlen
    constructor
    · simp only [captureEvidence]
      cases st.evidence.getLast? <;> simp [Nat.not_le.mpr hlen]
    · rfl

theorem capture_side_effect_contract_witness :
    (captureEvidence 99000 "e9" "l9" (some "f9") stFull).evidence = stFull.evidence ∧
    (captureEvidence 99000 "e9" "l9" (some "f9") stFull).logs
      = stFull.logs ++ [mkLog "l9" 99000 "EVIDENCE SECURED: Intrusion Snapshot Stored" .SYSTEM] :=
  capture_side_effect_contract.2.1 99000 "e9" "l9" "f9" stFull (by decide)

/-- C8: the full patrol cycle IDLE, BASELINE, REVIEW, ACTIVE, AUTH,
SUMMARY, IDLE is reachable, every transition out of SUMMARY runs
resetSystem, and resetSystem always clears the baseline, the logs and the
evidence store. -/
theorem patrol_cycle_and_reset :
    (Reachable stBase ∧ stBase.patrol = .BASELINE) ∧
    (Reachable stRev ∧ stRev.patrol = .REVIEW) ∧
    (Reachable stAct ∧ stAct.patrol = .ACTIVE) ∧
    (Reachable stAuthS ∧ stAuthS.patrol = .AUTH) ∧
    (Reachable stSum ∧ stSum.patrol = .SUMMARY) ∧
    (Step stSum stEnd ∧ stEnd.patrol = .IDLE ∧ stEnd.evidence = [] ∧
       stEnd.baselineData = none ∧ stEnd.baselineImage = none ∧ stEnd.logs = []) ∧
    (∀ s s2, Step s s2 → s.patrol = .SUMMARY → s2 = resetSystem s) ∧
    (∀ s, (resetSystem s).patrol = .IDLE ∧ (resetSystem s).evidence = [] ∧
       (resetSystem s).baselineData = none ∧ (resetSystem s).baselineImage = none ∧
       (resetSystem s).logs = []) := by
  refine ⟨⟨reach_stBase, rfl⟩, ⟨reach_stRev, rfl⟩, ⟨reach_stAct, rfl⟩,
          ⟨reach_stAuthS, rfl⟩, ⟨reach_stSum, rfl⟩,
          ⟨Step.archiveClose stSum rfl, rfl, rfl, rfl, rfl, rfl⟩, ?_,
          fun s => ⟨rfl, rfl, rfl, rfl, rfl⟩⟩
  intro s s2 hstep hsum
  cases hstep <;> simp_all

theorem patrol_cycle_and_reset_witness : stEnd = resetSystem stSum :=
  patrol_cycle_and_reset.2.2.2.2.2.2.1 stSum stEnd (Step.archiveClose stSum rfl) rfl

/-- C5 counterexample: after the connectLiveAgent failure fallback the
system is back in IDLE while the baseline profile is still stored, so the
baseline does not exist only in REVIEW, ACTIVE, AUTH and SUMMARY. -/
theorem baseline_survives_connect_failure_cex :
    Reachable stLeak ∧ requiresBaseline stLeak.patrol = false ∧
    stLeak.baselineData.isSome = true ∧ stLeak.baselineImage.isSome = true :=
  ⟨Reachable.step reach_stAct (Step.connectFailure stAct rfl), rfl, rfl, rfl⟩

/-- C5 (amended): in every reachable state whose patrol state is REVIEW,
ACTIVE, AUTH or SUMMARY both baseline fields are set, and resetSystem
always clears them; the converse fails only on the connectLiveAgent error
fallback, which returns to IDLE without clearing the baseline. -/
theorem baseline_presence_invariant :
    (∀ s, Reachable s → requiresBaseline s.patrol = true →
       s.baselineData.isSome = true ∧ s.baselineImage.isSome = true) ∧
    (∀ s, (resetSystem s).baselineData = none ∧ (resetSystem s).baselineImage = none) := by
  refine ⟨?_, fun s => ⟨rfl, rfl⟩⟩
  intro s h
  induction h with
  | init => intro hreq; simp [initState, requiresBaseline] at hreq
  | step _ hstep ih =>
    cases hstep with
    | startProtocol h =>
      intro hreq
      simp [requiresBaseline] at hreq
    | baselineScan camOk apiKey frame resp nowMs lid lid2 h =>
      intro hreq
      rcases captureBaseline_cases camOk apiKey frame resp nowMs lid lid2 _ with
        ⟨hp, hd, hi⟩ | ⟨hp, hd, hi⟩ | ⟨hp, hd, hi⟩
      · rw [hp, h] at hreq
        simp [requiresBaseline] at hreq
      · rw [hp] at hreq
        simp [requiresBaseline] at hreq
      · exact ⟨hd, hi⟩
    | retakeBaseline h =>
      intro hreq
      simp [requiresBaseline] at hreq
    | confirmIdentity nowMs lid h =>
      intro _
      exact ih (by simp [h, requiresBaseline])
    | connectFailure h =>
      intro hreq
      simp [requiresBaseline] at hreq
    | perceive nowMs eid elid lid frame text h =>
      intro _
      simp only [handleAgentPerception_baselineData, handleAgentPerception_baselineImage]
      exact ih (by simp [h, requiresBaseline])
    | manualScan camOk apiKey frame frame2 resp nowMs eid elid lid lid2 h =>
      intro _
      simp only [handleDeepScan_baselineData, handleDeepScan_baselineImage]
      exact ih (by simp [h, requiresBaseline])
    | lockNow nowMs lid h =>
      intro _
      exact ih (by simp [h, requiresBaseline])
    | authSubmit apiKey camOk password frame resp h =>
      intro _
      simp only [handleAuthSubmit_baselineData, handleAuthSubmit_baselineImage]
      exact ih (by simp [h, requiresBaseline])
    | discardClose h =>
      intro hreq
      simp [resetSystem, requiresBaseline] at hreq
    | archiveClose h =>
      intro hreq
      simp [resetSystem, requiresBaseline] at hreq

theorem baseline_presence_invariant_witness :
    stRev.baselineData.isSome = true ∧ stRev.baselineImage.isSome = true :=
  baseline_presence_invariant.1 stRev reach_stRev rfl

/-- C4: narration classification is a case-insensitive substring match
with DANGER keywords taking priority over CAUTION over SAFE, first match
wins, no match keeps the previous level; the stated concrete narrations
classify as claimed, and this is exactly the level handleAgentPerception
installs. -/
theorem narration_classifier_priority :
    (∀ prev, classifyLevel prev "ALERT: Unauthorized Biometric Detected" = .DANGER) ∧
    (∀ prev, classifyLevel prev "Status: Secure. Terminal Vacant." = .SAFE) ∧
    (∀ prev, classifyLevel prev "hmm" = prev) ∧
    (∀ prev text, hasAny dangerKws (jsToUpper text) = true →
       classifyLevel prev text = .DANGER) ∧
    (∀ prev text, hasAny dangerKws (jsToUpper text) = false →
       hasAny cautionKws (jsToUpper text) = false →
       hasAny safeKws (jsToUpper text) = false →
       classifyLevel prev text = prev) ∧
    (∀ (nowMs : Nat) (eid elid lid : String) (frame : Option String)
       (text : String) (st : SysState),
       (handleAgentPerception nowMs eid elid lid frame text st).threat
         = classifyLevel st.threat text) := by
  refine ⟨fun prev => rfl, fun prev => rfl, fun prev => rfl, ?_, ?_,
          fun nowMs eid elid lid frame text st =>
            perception_threat_eq nowMs eid elid lid frame text st⟩
  · intro prev text h
    simp [classifyLevel, h]
  · intro prev text h1 h2 h3
    simp [classifyLevel, h1, h2, h3]

theorem narration_classifier_priority_witness :
    classifyLevel .SAFE "Status safe but DANGER detected" = .DANGER :=
  narration_classifier_priority.2.2.2.1 .SAFE "Status safe but DANGER detected" rfl

/-- C9: every narration fragment is run through the classifier, but only
fragments longer than five characters append a PERCEPTION log entry;
shorter fragments leave the PERCEPTION log unchanged. -/
theorem short_fragment_classified_not_logged :
    ∀ (nowMs : Nat) (eid elid lid : String) (frame : Option String)
      (text : String) (st : SysState),
      (handleAgentPerception nowMs eid elid lid frame text st).threat
        = classifyLevel st.threat text ∧
      (text.length ≤ 5 →
        perceptionLogs (handleAgentPerception nowMs eid elid lid frame text st)
          = perceptionLogs st) ∧
      (5 < text.length →
        perceptionLogs (handleAgentPerception nowMs eid elid lid frame text st)
          = perceptionLogs st ++ [mkLog lid nowMs text .PERCEPTION]) := by
  intro nowMs eid elid lid frame text st
  refine ⟨perception_threat_eq nowMs eid elid lid frame text st, ?_, ?_⟩
  · intro hle
    simp only [handleAgentPerception]
    rw [if_neg (Nat.not_lt.mpr hle)]
    repeat' split
    all_goals (try rw [perceptionLogs_captureEvidence])
    all_goals rfl
  · intro hlt
    simp only [handleAgentPerception]
    rw [if_pos hlt]
    have hstep : ∀ s1 : SysState,
        perceptionLogs { s1 with logs := s1.logs ++ [mkLog lid nowMs text .PERCEPTION] }
          = perceptionLogs s1 ++ [mkLog lid nowMs text .PERCEPTION] := by
      intro s1
      simp [perceptionLogs, List.filter_append, mkLog]
    rw [hstep]
    congr 1
    repeat' split
    all_goals (try rw [perceptionLogs_captureEvidence])
    all_goals rfl

theorem short_fragment_classified_not_logged_witness :
    perceptionLogs (handleAgentPerception 0 "e" "el" "l" none "ok" initState)
      = perceptionLogs initState :=
  (short_fragment_classified_not_logged 0 "e" "el" "l" none "ok" initState).2.1 (by decide)

/-- C3 counterexample: when the output clock has passed the cursor the
cursor does not advance by exactly the buffer duration: with cursor 0, a
buffer arriving at clock 5 with duration 1 moves the cursor to 6, an
advance of 6, not 1. -/
theorem sched_cursor_overadvance_cex :
    schedStart 0 ⟨5, 1⟩ = 5 ∧
    schedNext 0 ⟨5, 1⟩ = 6 ∧
    ¬ schedNext 0 ⟨5, 1⟩ = 0 + (1 : ℚ) := by
  refine ⟨?_, ?_, ?_⟩ <;> norm_num [schedStart, schedNext, max_def]

/-- C3 (amended): each buffer starts at max(output clock, previous end),
the cursor becomes that start plus the buffer duration (so it advances by
at least the duration), and over any arrival sequence with non-negative
durations the scheduled starts are non-decreasing and no two scheduled
buffers overlap. -/
theorem sched_sequential_playback :
    (∀ (next : ℚ) (e : AudioEvent), schedStart next e = max e.clock next) ∧
    (∀ (next : ℚ) (e : AudioEvent), schedNext next e = schedStart next e + e.dur) ∧
    (∀ (next : ℚ) (e : AudioEvent), 0 ≤ e.dur → next + e.dur ≤ schedNext next e) ∧
    (∀ (next : ℚ) (es : List AudioEvent), (∀ e ∈ es, 0 ≤ e.dur) →
       List.Chain' (fun p q : ℚ × ℚ => p.1 ≤ q.1 ∧ p.2 ≤ q.1) (runSched next es)) := by
  refine ⟨fun next e => rfl, fun next e => rfl, ?_,
          fun next es h => runSched_chain es next h⟩
  intro next e _
  calc next + e.dur ≤ max e.clock next + e.dur :=
        add_le_add_right (le_max_right _ _) _
    _ = schedNext next e := rfl

theorem sched_sequential_playback_witness :
    List.Chain' (fun p q : ℚ × ℚ => p.1 ≤ q.1 ∧ p.2 ≤ q.1)
      (runSched 0 [⟨0, 1⟩, ⟨5, 2⟩]) :=
  sched_sequential_playback.2.2.2 0 [⟨0, 1⟩, ⟨5, 2⟩] (by decide)
